import Mathlib

/-!
# Verification of the matrix-wechat agent core

A shallow embedding of the agent's session registry, command dispatcher,
wechat-callback event translator, outbound write helper and websocket
reconnect loop, translated from the Rust sources
(`src/manager.rs`, `src/manager/matrix.rs`, `src/manager/wechat.rs`,
`src/wechat.rs`, `src/utils.rs`, `src/main.rs`, `src/ws/*.rs`,
`src/constants.rs`), together with theorems settling the spec claims.

Modelling conventions:
* `tokio`/`reqwest`/file-system effects are captured by explicit
  environment records whose fields give the outcome of each upstream call;
* `anyhow::Result` becomes `Except String`; `bail!` messages are kept;
* `std::collections::HashMap` behind a `Mutex` becomes an association
  list with insert-replaces / remove semantics (lock poisoning, the only
  failure mode of the lock, is not modelled: the process never panics
  while holding these locks in the translated code paths);
* XML deserialisation through `quick_xml::de` is modelled by a small
  executable XML reader (`xmlParse`) for the element/attribute shapes the
  translated structs use: the root element's name is not matched, struct
  fields map to child elements by name, `@`-renamed fields map to
  attributes of the element;
* `f64` parsing of coordinate strings is modelled over `ℚ` on plain
  decimal literals (the only inputs the claims exercise);
* wall-clock instants (`chrono::Utc::now`) become integer second counts
  supplied by the environment.
-/

namespace MatrixWechatAgent

/-! ## Association-list maps (model of `HashMap` under the registry locks) -/

/-- Lookup of the first binding of key `k` (model of `HashMap::get`). -/
def alistLookup {κ α : Type} [DecidableEq κ] (k : κ) : List (κ × α) → Option α
  | [] => none
  | (k', v) :: rest => if k = k' then some v else alistLookup k rest

/-- Remove every binding of key `k` (model of `HashMap::remove`). -/
def alistErase {κ α : Type} [DecidableEq κ] (k : κ) (m : List (κ × α)) : List (κ × α) :=
  m.filter (fun p => !decide (p.1 = k))

/-- Insert, replacing any previous binding (model of `HashMap::insert`). -/
def alistInsert {κ α : Type} [DecidableEq κ] (k : κ) (v : α) (m : List (κ × α)) :
    List (κ × α) :=
  (k, v) :: alistErase k m

theorem alistLookup_erase_self {κ α : Type} [DecidableEq κ] (k : κ) (m : List (κ × α)) :
    alistLookup k (alistErase k m) = none := by
  induction m with
  | nil => rfl
  | cons p rest ih =>
    by_cases h : p.1 = k
    · simpa [alistErase, h] using ih
    · simpa [alistErase, alistLookup, h, Ne.symm h] using ih

theorem alistLookup_erase_ne {κ α : Type} [DecidableEq κ] {k k' : κ} (m : List (κ × α))
    (h : k' ≠ k) : alistLookup k' (alistErase k m) = alistLookup k' m := by
  induction m with
  | nil => rfl
  | cons p rest ih =>
    simp only [alistErase] at ih ⊢
    by_cases hp : p.1 = k
    · simp [alistLookup, hp, h, ih]
    · by_cases hk : k' = p.1
      · simp [alistLookup, hp, hk]
      · simp [alistLookup, hp, hk, ih]

theorem alistLookup_insert_self {κ α : Type} [DecidableEq κ] (k : κ) (v : α)
    (m : List (κ × α)) : alistLookup k (alistInsert k v m) = some v := by
  simp [alistInsert, alistLookup]

theorem alistLookup_insert_ne {κ α : Type} [DecidableEq κ] {k k' : κ} (v : α)
    (m : List (κ × α)) (h : k' ≠ k) :
    alistLookup k' (alistInsert k v m) = alistLookup k' m := by
  simp [alistInsert, alistLookup, h, alistLookup_erase_ne m h]

/-! ## Data model: sessions and the registry (`src/manager.rs`) -/

/-- Rust `WechatInstance` (src/wechat.rs): one hooked native-client process.
The `reqwest::Client` handle carries no data and is omitted. -/
structure WechatInstance where
  port : Nat
  message_hook_port : Nat
  save_path : String
  pid : Nat
  mxid : String
deriving DecidableEq, Repr

/-- Rust `WechatManager`'s mutable state (src/manager.rs): the two registry maps,
the port counter, and the configuration fields. -/
structure ManagerState where
  message_hook_port : Nat
  save_path : String
  wechat_listen_port : Nat
  pid_instance_map : List (Nat × WechatInstance)
  mxid_pid_map : List (String × Nat)
deriving DecidableEq, Repr

/-- Rust `WechatManager::get_instance_by_pid` (src/manager.rs:58). -/
def get_instance_by_pid (st : ManagerState) (pid : Nat) : Except String WechatInstance :=
  match alistLookup pid st.pid_instance_map with
  | some ins => .ok ins
  | none => .error ("cannot get wechat instance by pid: " ++ toString pid)

/-- Rust `WechatManager::get_instance_by_mxid` (src/manager.rs:74). -/
def get_instance_by_mxid (st : ManagerState) (mxid : String) : Except String WechatInstance :=
  match alistLookup mxid st.mxid_pid_map with
  | some pid => get_instance_by_pid st pid
  | none => .error ("cannot get wechat pid by mxid: " ++ mxid)

/-- Rust `WechatManager::store_instance` (src/manager.rs:91): inserts into both
maps; the only Rust failure mode is lock poisoning, which is not modelled. -/
def store_instance (st : ManagerState) (mxid : String) (ins : WechatInstance) :
    ManagerState :=
  { st with
    pid_instance_map := alistInsert ins.pid ins st.pid_instance_map
    mxid_pid_map := alistInsert mxid ins.pid st.mxid_pid_map }

/-- Rust `WechatManager::drop_instance` (src/manager.rs:111). -/
def drop_instance (st : ManagerState) (mxid : String) : Except String ManagerState :=
  match alistLookup mxid st.mxid_pid_map with
  | none => .error ("get pid by mxid[" ++ mxid ++ "] failed")
  | some pid =>
      .ok { st with
            pid_instance_map := alistErase pid st.pid_instance_map
            mxid_pid_map := alistErase mxid st.mxid_pid_map }

/-- The spec's registry invariant (§3 Session): a session is present in the
process-index iff some owner in the owner-index maps to that session's
process id. -/
def registryConsistent (st : ManagerState) : Prop :=
  ∀ pid : Nat,
    (∃ ins, alistLookup pid st.pid_instance_map = some ins) ↔
    (∃ mxid, alistLookup mxid st.mxid_pid_map = some pid)

/-- The owner-index maps distinct owners to distinct process ids. -/
def ownerInjective (st : ManagerState) : Prop :=
  ∀ o₁ o₂ p, alistLookup o₁ st.mxid_pid_map = some p →
    alistLookup o₂ st.mxid_pid_map = some p → o₁ = o₂

/-! ## XML reader (model of the `quick_xml::de` shapes the agent uses)

The translator deserialises small XML documents into serde structs.  The
model parses the document into an element tree; struct fields map to child
elements by name, `@field` renames map to attributes, and a `String`
target takes the element's direct text content.  The root element's name
is not matched against anything (quick_xml's behaviour). -/

def isXmlSpace (c : Char) : Bool :=
  c == ' ' || c == '\n' || c == '\r' || c == '\t'

def isXmlNameChar (c : Char) : Bool :=
  c.isAlphanum || c == '_' || c == ':' || c == '-' || c == '.'

def skipXmlSpace : List Char → List Char
  | [] => []
  | c :: cs => if isXmlSpace c then skipXmlSpace cs else c :: cs

def takeXmlName : List Char → List Char × List Char
  | [] => ([], [])
  | c :: cs =>
    if isXmlNameChar c then
      let (n, r) := takeXmlName cs
      (c :: n, r)
    else ([], c :: cs)

def takeUntilChar (stop : Char) : List Char → Option (List Char × List Char)
  | [] => none
  | c :: cs =>
    if c == stop then some ([], cs)
    else
      match takeUntilChar stop cs with
      | none => none
      | some (a, r) => some (c :: a, r)

def takeXmlText : List Char → List Char × List Char
  | [] => ([], [])
  | c :: cs =>
    if c == '<' then ([], c :: cs)
    else
      let (t, r) := takeXmlText cs
      (c :: t, r)

def parseXmlAttrs : Nat → List Char → Option (List (String × String) × List Char)
  | 0, _ => none
  | fuel + 1, cs =>
    match skipXmlSpace cs with
    | [] => none
    | c :: rest =>
      if c == '/' || c == '>' then some ([], c :: rest)
      else
        match takeXmlName (c :: rest) with
        | ([], _) => none
        | (n, r1) =>
          match skipXmlSpace r1 with
          | '=' :: r2 =>
            match skipXmlSpace r2 with
            | '"' :: r3 =>
              match takeUntilChar '"' r3 with
              | none => none
              | some (v, r4) =>
                match parseXmlAttrs fuel r4 with
                | none => none
                | some (attrs, r5) => some ((String.mk n, String.mk v) :: attrs, r5)
            | _ => none
          | _ => none

inductive XmlNode where
  | elem (name : String) (attrs : List (String × String)) (children : List XmlNode)
  | txt (s : String)
deriving Repr

mutual

def parseXmlNode : Nat → List Char → Option (XmlNode × List Char)
  | 0, _ => none
  | fuel + 1, cs =>
    match cs with
    | '<' :: rest =>
      match takeXmlName rest with
      | ([], _) => none
      | (n, r1) =>
        match parseXmlAttrs (fuel + 1) r1 with
        | none => none
        | some (attrs, r2) =>
          match skipXmlSpace r2 with
          | '/' :: '>' :: r3 => some (.elem (String.mk n) attrs [], r3)
          | '>' :: r3 =>
            match parseXmlContent fuel r3 with
            | none => none
            | some (children, r4) =>
              match r4 with
              | '<' :: '/' :: r5 =>
                match takeXmlName r5 with
                | (cn, r6) =>
                  if cn = n then
                    match skipXmlSpace r6 with
                    | '>' :: r7 => some (.elem (String.mk n) attrs children, r7)
                    | _ => none
                  else none
              | _ => none
          | _ => none
    | _ => none

def parseXmlContent : Nat → List Char → Option (List XmlNode × List Char)
  | 0, _ => none
  | fuel + 1, cs =>
    match cs with
    | [] => none
    | '<' :: '/' :: rest => some ([], '<' :: '/' :: rest)
    | '<' :: rest =>
      match parseXmlNode fuel ('<' :: rest) with
      | none => none
      | some (n, r) =>
        match parseXmlContent fuel r with
        | none => none
        | some (ns, r2) => some (n :: ns, r2)
    | c :: rest =>
      match takeXmlText (c :: rest) with
      | (t, r) =>
        match parseXmlContent fuel r with
        | none => none
        | some (ns, r2) => some (.txt (String.mk t) :: ns, r2)

end

def dropPrologEnd : List Char → List Char
  | [] => []
  | '?' :: '>' :: r => r
  | _ :: r => dropPrologEnd r

def skipXmlProlog : List Char → List Char
  | '<' :: '?' :: rest => dropPrologEnd rest
  | cs => cs

/-- Parse a complete XML document into its root element. -/
def xmlParse (s : String) : Option XmlNode :=
  let cs := skipXmlSpace (skipXmlProlog (skipXmlSpace s.toList))
  match parseXmlNode (2 * cs.length + 2) cs with
  | some (n, rest) => if (skipXmlSpace rest).isEmpty then some n else none
  | none => none

/-- Direct text content of a node (serde `String` target). -/
def XmlNode.textOf : XmlNode → String
  | .txt s => s
  | .elem _ _ children =>
      children.foldl
        (fun acc c => match c with | .txt s => acc ++ s | .elem _ _ _ => acc) ""

/-- First child element of the given name (serde field by name). -/
def XmlNode.child (n : XmlNode) (cname : String) : Option XmlNode :=
  match n with
  | .txt _ => none
  | .elem _ _ children =>
      children.find?
        (fun c => match c with | .elem nm _ _ => nm == cname | .txt _ => false)

/-- Attribute value (serde `@field` rename). -/
def XmlNode.attr (n : XmlNode) (aname : String) : Option String :=
  match n with
  | .txt _ => none
  | .elem _ attrs _ => (attrs.find? (fun p => p.1 == aname)).map Prod.snd

def XmlNode.childText (n : XmlNode) (cname : String) : Option String :=
  (n.child cname).map XmlNode.textOf

/-! ## Numeric string parsing -/

def digitsToNat : List Char → Option Nat
  | [] => none
  | cs =>
      if cs.all Char.isDigit
      then some (cs.foldl (fun a c => a * 10 + (c.toNat - 48)) 0)
      else none

/-- Exact decimal number `num / 10 ^ exp` (model of the `f64` values the
translator parses from coordinate strings; the claims only exercise plain
decimal literals, which this represents exactly). -/
structure DecimalNum where
  num : Int
  exp : Nat
deriving DecidableEq, Repr

/-- The rational value of a parsed decimal. -/
def DecimalNum.toRat (d : DecimalNum) : ℚ := (d.num : ℚ) / (10 : ℚ) ^ d.exp

/-- Plain decimal literal (model of `str::parse::<f64>` on the decimal
strings the translator receives). -/
def parseDecCore (cs : List Char) : Option DecimalNum :=
  match cs.span (fun c => c != '.') with
  | (intp, []) => (digitsToNat intp).map (fun n => ⟨n, 0⟩)
  | (intp, _ :: frac) =>
    match digitsToNat intp, digitsToNat frac with
    | some i, some f => some ⟨i * 10 ^ frac.length + f, frac.length⟩
    | _, _ => none

def parseDecimal (s : String) : Option DecimalNum :=
  match s.toList with
  | '-' :: rest => (parseDecCore rest).map (fun d => ⟨-d.num, d.exp⟩)
  | cs => parseDecCore cs

def parseNatStr (s : String) : Option Nat := digitsToNat s.toList

/-! ## Wire types (`src/ws.rs`, `src/ws/send.rs`, `src/wechat.rs`) -/

/-- Rust `MatrixMessageDataField` (src/ws.rs): untagged payload union used both
in inbound message commands and in outbound events.  `Location`
coordinates are the exact decimals the translator parsed. -/
inductive MatrixMessageDataField where
  | Mentions (ids : List String)
  | Blob (name : Option String) (binary : List Nat)
  | Location (name address : String) (longitude latitude : DecimalNum)
  | Media (name url : String)
  | Link (title des url : String)
deriving DecidableEq, Repr

/-- Rust `EventType` (src/ws/send.rs). -/
inductive EventType where
  | Text | Image | Audio | Video | File | Location | Notice | App | Revoke | VoIP | System
deriving DecidableEq, Repr

/-- Rust `ReplyInfo` (src/ws/send.rs). -/
structure ReplyInfo where
  id : Nat
  sender : String
deriving DecidableEq, Repr

/-- Rust `WebsocketEventBase` (src/ws/send.rs); the timestamp is an integer
second count. -/
structure WebsocketEventBase where
  mxid : String
  id : Nat
  event_type : EventType
  timestamp : Int
  sender : String
  target : String
  content : String
  reply : Option ReplyInfo
deriving DecidableEq, Repr

/-- Rust `WebsocketEvent<MatrixMessageDataField>` (src/ws/send.rs). -/
structure WebsocketEvent where
  base : WebsocketEventBase
  extra : Option MatrixMessageDataField
deriving DecidableEq, Repr

/-- Rust `WechatMessageType` (src/wechat.rs:739). -/
inductive WechatMessageType where
  | Unknown | Text | Image | Voice | Video | Sticker | Location | App
  | PrivateVoIP | LastMessage | Hint | System
deriving DecidableEq, Repr

/-- Rust `WechatMessage` (src/wechat.rs:704): one decoded callback line. -/
structure WechatMessage where
  pid : Nat
  message_id : Nat
  timestamp : Int
  wechat_id : String
  sender : String
  self_id : String
  is_send_message : Int
  is_send_by_phone : Option Int
  msg_type : WechatMessageType
  message : String
  file_path : String
  thumb_path : String
  extra_info : String
deriving DecidableEq, Repr

/-! ## Event translator (`src/manager/wechat.rs`) -/

/-- File-system / network outcomes consumed by the translator's fetch
helpers (`fetch_image`/`fetch_voice`/`fetch_video`/`fetch_file`/
`fetch_sticker`): each yields the blob's filename and bytes, or the error
that the bounded open/fetch ultimately produced. -/
structure CallbackEnv where
  nowTs : Int
  fetchImage : String → String → Except String (Option String × List Nat)
  fetchVoice : String → String → Except String (Option String × List Nat)
  fetchVideo : String → String → Except String (Option String × List Nat)
  fetchFile : String → Except String (Option String × List Nat)
  fetchSticker : String → Except String (Option String × List Nat)

/-- Rust `WechatManager::get_mentions` (src/manager/wechat.rs:284). -/
def get_mentions (extra : String) : Except String (Option MatrixMessageDataField) :=
  if extra = "" then .error "no data in extra info"
  else
    match xmlParse extra with
    | none => .error "parse mentions xml failed"
    | some root =>
      match root.childText "atuserlist" with
      | none => .ok none
      | some s => .ok (some (.Mentions (s.trim.splitOn ",")))

/-- Rust `WechatManager::parse_location` (src/manager/wechat.rs:453):
`longitude` comes from attribute `y`, `latitude` from attribute `x`. -/
def parse_location (msg : String) : Except String MatrixMessageDataField :=
  if msg = "" then .error "no data in extra info"
  else
    match xmlParse msg with
    | none => .error "parse location xml failed"
    | some root =>
      match root.child "location" with
      | none => .error "missing field location"
      | some loc =>
        match loc.attr "x", loc.attr "y", loc.attr "poiname", loc.attr "label" with
        | some x, some y, some pn, some lb =>
          match parseDecimal y, parseDecimal x with
          | some lon, some lat => .ok (.Location pn lb lon lat)
          | _, _ => .error "invalid float literal"
        | _, _, _, _ => .error "missing location attribute"

/-- Rust `EnumAppMessage` (src/manager/wechat.rs:587); `Reply` carries the
fields of `AppReply` with `content` already set from the title. -/
inductive EnumAppMessage where
  | File
  | Sticker
  | Announcement (a : String)
  | Reply (content : String) (refer_msg_id : Nat) (chat_sender user_sender : Option String)
  | Link (title des url : String)
deriving DecidableEq, Repr

/-- Rust `WechatManager::parse_app` (src/manager/wechat.rs:484) together with
the serde shapes `AppMessage`/`AppMessageContent`/`AppReply`
(src/manager/wechat.rs:580) and the `WechatMessageAppType` numeric
mapping (File=6, Sticker=8, Reply=57, Notice=87, fallback Other). -/
def parse_app (msg : String) : Except String EnumAppMessage :=
  if msg = "" then .error "no data in extra info"
  else
    match xmlParse msg with
    | none => .error "parse app xml failed"
    | some root =>
      match root.child "appmsg" with
      | none => .error "missing field appmsg"
      | some app =>
        match (app.childText "type").bind parseNatStr, app.childText "title",
              app.childText "des" with
        | some ty, some title, some des =>
          let url := app.childText "url"
          let ann := app.childText "textannouncement"
          match app.child "refermsg" with
          | some rm =>
            match (rm.childText "svrid").bind parseNatStr with
            | none => .error "invalid refermsg"
            | some rid =>
              if ty = 6 then .ok .File
              else if ty = 8 then .ok .Sticker
              else if ty = 57 then
                .ok (.Reply title rid (rm.childText "chatusr") (rm.childText "fromusr"))
              else if ty = 87 then
                match ann with
                | some a => .ok (.Announcement a)
                | none => .ok (.Link title des (url.getD ""))
              else .ok (.Link title des (url.getD ""))
          | none =>
            if ty = 6 then .ok .File
            else if ty = 8 then .ok .Sticker
            else if ty = 87 then
              match ann with
              | some a => .ok (.Announcement a)
              | none => .ok (.Link title des (url.getD ""))
            else .ok (.Link title des (url.getD ""))
        | _, _, _ => .error "invalid app message"

/-- Rust `WechatManager::parse_private_voip` (src/manager/wechat.rs:508): tries
the invite shape, then the bubble shape, and otherwise returns the empty
string; every path is `Ok`. -/
def parse_private_voip (msg : String) : Except String String :=
  match xmlParse msg with
  | some root =>
    match (root.childText "status").bind parseNatStr with
    | some 1 => .ok "VoIP: Started a call"
    | some 2 => .ok "VoIP: Call ended"
    | some s => .ok ("VoIP: Unknown status: " ++ toString s)
    | none =>
      match (root.child "VoIPBubbleMsg").bind (fun b => b.childText "msg") with
      | some m => .ok ("VoIP: " ++ m)
      | none => .ok ""
  | none => .ok ""

/-- Rust `WechatManager::parse_hint` (src/manager/wechat.rs:546): best-effort
XML-or-raw-string. -/
def parse_hint (msg : String) : Except String String :=
  if msg = "" then .error "no data in extra info"
  else .ok (match xmlParse msg with
            | some root => root.textOf
            | none => msg)

/-- The `@type` attribute of a system message, when its XML parses. -/
def sysMsgType (msg : String) : Option String :=
  (xmlParse msg).bind (fun root => root.attr "type")

/-- Rust `WechatManager::parse_system_message` (src/manager/wechat.rs:553). -/
def parse_system_message (msg : String) : Except String String :=
  if msg = "" then .error "no data in extra info"
  else
    match sysMsgType msg with
    | none => .ok ""
    | some t => if t = "pat" || t = "revokemsg" then .ok "" else .ok msg

/-- Does the list begin with the given leading segment? -/
def listBeginsWith {α : Type} [DecidableEq α] : List α → List α → Bool
  | [], _ => true
  | _ :: _, [] => false
  | a :: as, b :: bs => decide (a = b) && listBeginsWith as bs

/-- Model of Rust `str::ends_with` (kernel-evaluable, unlike
`String.endsWith`). -/
def strEndsWith (s suffix : String) : Bool :=
  listBeginsWith suffix.toList.reverse s.toList.reverse

/-- The duplicate-phone-message pre-filter condition of
`WechatManager::handle_wechat_callback` (src/manager/wechat.rs:89). -/
def phone_dup_prefilter (msg : WechatMessage) : Bool :=
  decide (msg.is_send_by_phone = some 0) && !decide (msg.msg_type = WechatMessageType.Hint)

/-- Rust `WechatManager::handle_wechat_callback` (src/manager/wechat.rs:86):
translates one raw callback message into the list of events written to the
websocket (`[]` for the silently dropped cases, one event otherwise), or
the hard translation failure. -/
def handle_wechat_callback (env : CallbackEnv) (st : ManagerState) (msg : WechatMessage) :
    Except String (List WebsocketEvent) :=
  if phone_dup_prefilter msg then .ok []
  else
    match get_instance_by_pid st msg.pid with
    | .error e => .error e
    | .ok ins =>
      let base0 : WebsocketEventBase :=
        { mxid := ins.mxid, id := msg.message_id, event_type := .Text,
          timestamp := env.nowTs, sender := msg.self_id, target := msg.sender,
          content := msg.message, reply := none }
      let base :=
        if msg.is_send_message == 0 then
          let b := { base0 with sender := msg.wechat_id }
          if strEndsWith msg.sender "@chatroom" then b
          else { b with target := msg.self_id }
        else base0
      match msg.msg_type with
      | .Unknown => .ok [⟨base, none⟩]
      | .Text =>
        match get_mentions msg.extra_info with
        | .error e => .error e
        | .ok ex => .ok [⟨base, ex⟩]
      | .Image =>
        match env.fetchImage msg.self_id msg.file_path with
        | .ok (n, b) => .ok [⟨{ base with event_type := .Image }, some (.Blob n b)⟩]
        | .error _ => .ok [⟨{ base with content := "[图片下载失败]" }, none⟩]
      | .Voice =>
        match env.fetchVoice msg.self_id msg.message with
        | .ok (n, b) => .ok [⟨{ base with event_type := .Audio }, some (.Blob n b)⟩]
        | .error _ => .ok [⟨{ base with content := "[语音下载失败]" }, none⟩]
      | .Video =>
        match env.fetchVideo msg.file_path msg.thumb_path with
        | .ok (n, b) => .ok [⟨{ base with event_type := .Video }, some (.Blob n b)⟩]
        | .error _ => .ok [⟨{ base with content := "[视频下载失败]" }, none⟩]
      | .Sticker =>
        match env.fetchSticker msg.message with
        | .ok (n, b) => .ok [⟨{ base with event_type := .Image }, some (.Blob n b)⟩]
        | .error _ => .ok [⟨{ base with content := "[表情下载失败]" }, none⟩]
      | .Location =>
        match parse_location msg.message with
        | .ok loc => .ok [⟨{ base with event_type := .Location }, some loc⟩]
        | .error _ => .ok [⟨{ base with content := "[位置解析失败]" }, none⟩]
      | .App =>
        match parse_app msg.message with
        | .ok .File =>
          match env.fetchFile msg.file_path with
          | .ok (n, b) => .ok [⟨{ base with event_type := .File }, some (.Blob n b)⟩]
          | .error _ => .ok [⟨{ base with content := "[文件下载失败]" }, none⟩]
        | .ok .Sticker =>
          match env.fetchSticker msg.message with
          | .ok (n, b) => .ok [⟨{ base with event_type := .Image }, some (.Blob n b)⟩]
          | .error _ => .ok [⟨{ base with content := "[表情下载失败]" }, none⟩]
        | .ok (.Reply content rid cs us) =>
          match cs.orElse (fun _ => us) with
          | none => .error ("cannot find sender. msg_id: " ++ toString msg.message_id)
          | some snd =>
            .ok [⟨{ base with content := content, reply := some ⟨rid, snd⟩ }, none⟩]
        | .ok (.Announcement a) =>
          .ok [⟨{ base with event_type := .Notice, content := a }, none⟩]
        | .ok (.Link t d u) =>
          .ok [⟨{ base with event_type := .App }, some (.Link t d u)⟩]
        | .error _ => .ok [⟨{ base with content := "[应用解析失败]" }, none⟩]
      | .PrivateVoIP =>
        match parse_private_voip msg.message with
        | .ok s => .ok [⟨{ base with event_type := .VoIP, content := s }, none⟩]
        | .error _ => .ok [⟨{ base with content := "[VoIP状态解析失败]" }, none⟩]
      | .LastMessage => .ok []
      | .Hint =>
        match parse_hint msg.message with
        | .ok s => .ok [⟨{ base with event_type := .Revoke, content := s }, none⟩]
        | .error _ => .ok [⟨{ base with content := "[撤回消息解析失败]" }, none⟩]
      | .System =>
        if msg.sender == "weixin" || msg.is_send_message == 1 then .ok []
        else
          match parse_system_message msg.message with
          | .ok s =>
            let b := { base with event_type := EventType.System, content := s }
            let b :=
              if ((s == "You recalled a message") || (s == "你撤回了一条消息")) &&
                 !(strEndsWith msg.sender "@chatroom")
              then { b with target := msg.wechat_id } else b
            .ok [⟨b, none⟩]
          | .error _ => .ok [⟨{ base with content := "[系统消息解析失败]" }, none⟩]

/-! ## The outbound write helper (`src/utils.rs`) -/

/-- Rust `constants::DEFAULT_WRITE_WS_RETRY_TIME` (src/constants.rs:76). -/
def DEFAULT_WRITE_WS_RETRY_TIME : Nat := 3

/-- The broadcast-channel send attempts the retry loop performs: attempt
indices consulted in order, stopping at the first success (`true` =
message enqueued on the channel). -/
def write_attempts (sendOk : Nat → Bool) : Nat → Nat → List Bool
  | _, 0 => []
  | i, n + 1 => if sendOk i then [true] else false :: write_attempts sendOk (i + 1) n

/-- Rust `utils::retriable_write` (src/utils.rs:20).  `serialized` is the
outcome of `serde_json::to_string`; `sendOk i` is whether the `i`-th
`broadcast::Sender::send` succeeds.  Every send failure is logged and
swallowed.  Returns the function's result together with the trace of send
attempts. -/
def retriable_write (serialized : Except String String) (sendOk : Nat → Bool)
    (retry_time : Option Nat) : Except String Unit × List Bool :=
  match serialized with
  | .error e => (.error e, [])
  | .ok _ =>
      (.ok (), write_attempts sendOk 0 (retry_time.getD DEFAULT_WRITE_WS_RETRY_TIME))

/-! ## Outbound message sending (`src/wechat.rs`) -/

/-- A reply payload as written back to the websocket; upstream results the
claims do not inspect are carried opaquely. -/
inductive PayloadVal where
  | unit
  | bytes (b : List Nat)
  | status (b : Bool)
  | json (s : String)
deriving DecidableEq, Repr

/-- One observable side effect of `WechatInstance`'s message-send API:
the hook-API posts (`send_text`/`send_at_text`/`send_image`/`send_file`,
src/wechat.rs:648) and the media persistence of `save_media`.  In
`sendAtText`, `wxids` is the comma-joined mention list. -/
inductive SendAction where
  | sendText (wxid msg : String)
  | sendAtText (chatroom_id msg wxids : String)
  | persistFile (path : String) (blob : List Nat)
  | sendImage (receiver img_path : String)
  | sendFile (receiver file_path : String)
deriving DecidableEq, Repr

/-- Outcomes of the upstream collaborators the command handlers call: the
native driver (`WechatInstance::new`), the hooked client's HTTP control
API, and the network/file-system effects of `save_media`. -/
structure UpstreamEnv where
  newPid : Except String Nat
  hook : Nat → Except String Unit
  qrcode : Nat → Except String PayloadVal
  isLogin : Nat → Except String Bool
  getSelf : Nat → Except String PayloadVal
  getUserInfo : Nat → String → Except String PayloadVal
  getGroupInfo : Nat → String → Except String PayloadVal
  getGroupMembers : Nat → String → Except String PayloadVal
  getGroupMemberNickname : Nat → String → String → Except String PayloadVal
  getFriendList : Nat → Except String PayloadVal
  getGroupList : Nat → Except String PayloadVal
  fetchUrl : String → Except String (List Nat)
  md5hex : List Nat → String
  createFile : String → Except String Unit
  post : SendAction → Except String Unit

/-- The file path that `save_media` persists a blob to (src/wechat.rs:632):
the media name, or the blob's MD5 hex when the name is empty, under
`<save_path>/matrix_media/`. -/
def media_filepath (env : UpstreamEnv) (ins : WechatInstance) (name : String)
    (blob : List Nat) : String :=
  if name.length = 0 then ins.save_path ++ "/matrix_media/" ++ env.md5hex blob
  else ins.save_path ++ "/matrix_media/" ++ name

/-- Rust `WechatInstance::save_media` (src/wechat.rs:630): fetch the blob,
persist it, return the file path (`File::create` + `write_all` outcomes
are collapsed into `env.createFile`). -/
def save_media (env : UpstreamEnv) (ins : WechatInstance) (name url : String) :
    Except String (String × List SendAction) :=
  match env.fetchUrl url with
  | .error e => .error e
  | .ok blob =>
    let filepath := media_filepath env ins name blob
    match env.createFile filepath with
    | .error e => .error e
    | .ok _ => .ok (filepath, [.persistFile filepath blob])

/-- Rust `MatrixMessageType` (src/ws/recv.rs:41). -/
inductive MatrixMessageType where
  | Text | Emote | Notice | Image | Location | Video | Audio | File
deriving DecidableEq, Repr

/-- Rust `MatrixRequestDataMessage` (src/ws/recv.rs:31). -/
structure MatrixRequestDataMessage where
  target : String
  message_type : MatrixMessageType
  content : String
  data : Option MatrixMessageDataField
deriving DecidableEq, Repr

/-- Rust `WechatInstance::send_message` (src/wechat.rs:575): dispatch on the
(kind, payload) pair, returning the sequence of performed side effects. -/
def send_message (env : UpstreamEnv) (ins : WechatInstance)
    (m : MatrixRequestDataMessage) : Except String (List SendAction) :=
  match m.message_type, m.data with
  | .Text, none =>
    (env.post (.sendText m.target m.content)).map
      (fun _ => [.sendText m.target m.content])
  | .Text, some (.Mentions mentions) =>
    if mentions.isEmpty then
      (env.post (.sendText m.target m.content)).map
        (fun _ => [.sendText m.target m.content])
    else
      let ids := String.intercalate "," mentions
      (env.post (.sendAtText m.target m.content ids)).map
        (fun _ => [.sendAtText m.target m.content ids])
  | .Image, some (.Media name url) =>
    match save_media env ins name url with
    | .error e => .error e
    | .ok (path, acts) =>
      (env.post (.sendImage m.target path)).map
        (fun _ => acts ++ [.sendImage m.target path])
  | .Video, some (.Media name url) =>
    match save_media env ins name url with
    | .error e => .error e
    | .ok (path, acts) =>
      (env.post (.sendImage m.target path)).map
        (fun _ => acts ++ [.sendImage m.target path])
  | .File, some (.Media name url) =>
    match save_media env ins name url with
    | .error e => .error e
    | .ok (path, acts) =>
      (env.post (.sendFile m.target path)).map
        (fun _ => acts ++ [.sendFile m.target path])
  | _, _ => .error "message type and data are mismatched"

/-! ## Command dispatcher (`src/manager/matrix.rs`) -/

/-- Rust `CommandType` (src/ws.rs:8). -/
inductive CommandType where
  | Connect | Disconnect | LoginWithQRCode | IsLogin | GetSelf | GetUserInfo
  | GetGroupInfo | GetGroupMembers | GetGroupMemberNickname | GetFriendList
  | GetGroupList | SendMessage | Response | Error | Ping | WebsocketClosed
deriving DecidableEq, Repr

/-- Rust `MatrixRequestDataField` (src/ws/recv.rs:17). -/
inductive MatrixRequestDataField where
  | Query (wechat_id group_id : String)
  | Message (m : MatrixRequestDataMessage)
deriving DecidableEq, Repr

/-- Rust `WebsocketMatrixRequest` (src/ws/recv.rs:7). -/
structure WebsocketMatrixRequest where
  mxid : String
  req_id : Int
  command : CommandType
  data : Option MatrixRequestDataField
deriving DecidableEq, Repr

/-- Body of an outbound `WebsocketCommand` reply: a `Response` with its
payload, or an `Error` with its `message` field. -/
inductive ReplyBody where
  | resp (d : Option PayloadVal)
  | err (message : String)
deriving DecidableEq, Repr

/-- One reply written to the websocket by `write_command_resp` /
`write_command_error` (src/manager.rs:149). -/
structure WsReply where
  mxid : String
  req_id : Int
  body : ReplyBody
deriving DecidableEq, Repr

def WsReply.isResp (r : WsReply) : Bool :=
  match r.body with | .resp _ => true | .err _ => false

def WsReply.errMsg (r : WsReply) : Option String :=
  match r.body with | .resp _ => none | .err m => some m

def exceptIsOk {ε α : Type} : Except ε α → Bool
  | .ok _ => true
  | .error _ => false

def exceptErrOf {ε α : Type} : Except ε α → Option ε
  | .ok _ => none
  | .error e => some e

/-- The common tail of each dispatcher arm: on success the arm's final
`write_command_resp` emits one `Response` reply (the serde serialisation
of these reply shapes cannot fail, so `retriable_write` returns `Ok`); on
failure the `?` operator propagates the error with nothing emitted. -/
def finishCommand (mxid : String) (req : Int) (st : ManagerState)
    (r : Except String (ManagerState × Option PayloadVal)) :
    ManagerState × List WsReply × Except String Unit :=
  match r with
  | .error e => (st, [], .error e)
  | .ok (st2, d) => (st2, [⟨mxid, req, .resp d⟩], .ok ())

/-- Rust `WechatManager::_handle_matrix_events` (src/manager/matrix.rs:27):
returns the updated registry state, the replies written, and the arm's
result. -/
def _handle_matrix_events (env : UpstreamEnv) (st : ManagerState)
    (msg : WebsocketMatrixRequest) : ManagerState × List WsReply × Except String Unit :=
  match msg.command with
  | .Connect =>
    match get_instance_by_mxid st msg.mxid with
    | .ok ins =>
      finishCommand msg.mxid msg.req_id st
        ((env.hook ins.pid).map (fun _ => (store_instance st msg.mxid ins, none)))
    | .error _ =>
      let port := st.wechat_listen_port
      let st1 := { st with wechat_listen_port := port + 1 }
      finishCommand msg.mxid msg.req_id st1
        (match env.newPid with
         | .error e => .error e
         | .ok pid =>
           let ins : WechatInstance :=
             { port := port, message_hook_port := st1.message_hook_port,
               save_path := st1.save_path, pid := pid, mxid := msg.mxid }
           (env.hook ins.pid).map
             (fun _ => (store_instance st1 msg.mxid ins, (none : Option PayloadVal))))
  | .Disconnect =>
    finishCommand msg.mxid msg.req_id st
      ((drop_instance st msg.mxid).map (fun st2 => (st2, none)))
  | .LoginWithQRCode =>
    finishCommand msg.mxid msg.req_id st
      (match get_instance_by_mxid st msg.mxid with
       | .error e => .error e
       | .ok ins => (env.qrcode ins.pid).map (fun v => (st, some v)))
  | .IsLogin =>
    finishCommand msg.mxid msg.req_id st
      ((get_instance_by_mxid st msg.mxid).map (fun ins =>
        (st, some (.status (match env.isLogin ins.pid with
                            | .ok b => b
                            | .error _ => false)))))
  | .GetSelf =>
    finishCommand msg.mxid msg.req_id st
      (match get_instance_by_mxid st msg.mxid with
       | .error e => .error e
       | .ok ins => (env.getSelf ins.pid).map (fun v => (st, some v)))
  | .GetUserInfo =>
    match msg.data with
    | some (.Query wxid _gid) =>
      finishCommand msg.mxid msg.req_id st
        (match get_instance_by_mxid st msg.mxid with
         | .error e => .error e
         | .ok ins => (env.getUserInfo ins.pid wxid).map (fun v => (st, some v)))
    | _ => (st, [], .error "deserialize matrix message failed")
  | .GetGroupInfo =>
    match msg.data with
    | some (.Query _wxid gid) =>
      finishCommand msg.mxid msg.req_id st
        (match get_instance_by_mxid st msg.mxid with
         | .error e => .error e
         | .ok ins => (env.getGroupInfo ins.pid gid).map (fun v => (st, some v)))
    | _ => (st, [], .error "deserialize matrix message failed")
  | .GetGroupMembers =>
    match msg.data with
    | some (.Query _wxid gid) =>
      finishCommand msg.mxid msg.req_id st
        (match get_instance_by_mxid st msg.mxid with
         | .error e => .error e
         | .ok ins => (env.getGroupMembers ins.pid gid).map (fun v => (st, some v)))
    | _ => (st, [], .error "deserialize matrix message failed")
  | .GetGroupMemberNickname =>
    match msg.data with
    | some (.Query wxid gid) =>
      finishCommand msg.mxid msg.req_id st
        (match get_instance_by_mxid st msg.mxid with
         | .error e => .error e
         | .ok ins =>
           (env.getGroupMemberNickname ins.pid gid wxid).map (fun v => (st, some v)))
    | _ => (st, [], .error "deserialize matrix message failed")
  | .GetFriendList =>
    finishCommand msg.mxid msg.req_id st
      (match get_instance_by_mxid st msg.mxid with
       | .error e => .error e
       | .ok ins => (env.getFriendList ins.pid).map (fun v => (st, some v)))
  | .GetGroupList =>
    finishCommand msg.mxid msg.req_id st
      (match get_instance_by_mxid st msg.mxid with
       | .error e => .error e
       | .ok ins => (env.getGroupList ins.pid).map (fun v => (st, some v)))
  | .SendMessage =>
    match msg.data with
    | some (.Message m) =>
      finishCommand msg.mxid msg.req_id st
        (match get_instance_by_mxid st msg.mxid with
         | .error e => .error e
         | .ok ins =>
           match send_message env ins m with
           | .error e => .error e
           | .ok _ => .ok (st, some PayloadVal.unit))
    | _ => (st, [], .error "deserialize matrix message failed")
  | _ => (st, [], .error "deserialize matrix message failed")

/-- Rust `WechatManager::handle_matrix_events` (src/manager/matrix.rs:16): on an
inner failure, one `Error` reply carrying the failure's message is written
(`write_command_error`'s own write cannot fail: its `{"message": …}` body
always serialises and channel-send failures are swallowed by
`retriable_write`). -/
def handle_matrix_events (env : UpstreamEnv) (st : ManagerState)
    (msg : WebsocketMatrixRequest) : ManagerState × List WsReply :=
  match _handle_matrix_events env st msg with
  | (st2, out, .ok _) => (st2, out)
  | (st2, out, .error e) => (st2, out ++ [⟨msg.mxid, msg.req_id, .err e⟩])

/-! ## Websocket reconnect loop (`src/main.rs:74`) -/

/-- Rust `constants::MAX_WS_RECONNECT_COUNT` (src/constants.rs:78). -/
def MAX_WS_RECONNECT_COUNT : Nat := 5

/-- Rust `wait = Duration::from_secs(5)` (src/main.rs:78): the backoff unit. -/
def WS_BACKOFF_UNIT_SECS : Nat := 5

/-- The reconnect loop's mutable state: `err_cnt` and `last_err`
(seconds). -/
structure WsLoopState where
  err_cnt : Nat
  last_err : Int
deriving DecidableEq, Repr

/-- One iteration of the reconnect loop after `connect_ws` returns at
time `now`: `none` when the loop gives up (`err_cnt` exceeded
`MAX_WS_RECONNECT_COUNT`), otherwise the wait in seconds before the next
attempt and the updated state. -/
def ws_reconnect_step (st : WsLoopState) (now : Int) : Option (Nat × WsLoopState) :=
  let cnt := if now - st.last_err < 5 * 60 then st.err_cnt + 1 else 1
  if cnt > MAX_WS_RECONNECT_COUNT then none
  else some (WS_BACKOFF_UNIT_SECS * cnt, { err_cnt := cnt, last_err := now })

/-- The waits performed by the loop across a sequence of failure times;
the list ends when the loop gives up or the failure sequence ends. -/
def ws_reconnect_run : WsLoopState → List Int → List Nat
  | _, [] => []
  | st, t :: ts =>
    match ws_reconnect_step st t with
    | none => []
    | some (w, st2) => w :: ws_reconnect_run st2 ts

/-! ## Concrete fixtures used by witnesses and counterexamples -/

/-- An empty registry with the default hook port. -/
def stEmpty : ManagerState :=
  { message_hook_port := 23333, save_path := "save", wechat_listen_port := 30001,
    pid_instance_map := [], mxid_pid_map := [] }

def insA : WechatInstance :=
  { port := 30001, message_hook_port := 23333, save_path := "save",
    pid := 100, mxid := "@alice:hs" }

def insB : WechatInstance :=
  { port := 30002, message_hook_port := 23333, save_path := "save",
    pid := 101, mxid := "@alice:hs" }

/-- A registry in which `insA` is registered for its owner. -/
def stA : ManagerState :=
  { message_hook_port := 23333, save_path := "save", wechat_listen_port := 30002,
    pid_instance_map := [(100, insA)], mxid_pid_map := [("@alice:hs", 100)] }

/-- Callback environment in which every fetch fails. -/
def envCb0 : CallbackEnv :=
  { nowTs := 0
    fetchImage := fun _ _ => .error "no file"
    fetchVoice := fun _ _ => .error "no file"
    fetchVideo := fun _ _ => .error "no file"
    fetchFile := fun _ => .error "no file"
    fetchSticker := fun _ => .error "no file" }

/-- Upstream environment in which every call succeeds. -/
def envU0 : UpstreamEnv :=
  { newPid := .ok 100, hook := fun _ => .ok (), qrcode := fun _ => .ok .unit,
    isLogin := fun _ => .ok true, getSelf := fun _ => .ok .unit,
    getUserInfo := fun _ _ => .ok .unit, getGroupInfo := fun _ _ => .ok .unit,
    getGroupMembers := fun _ _ => .ok .unit,
    getGroupMemberNickname := fun _ _ _ => .ok .unit,
    getFriendList := fun _ => .ok .unit, getGroupList := fun _ => .ok .unit,
    fetchUrl := fun _ => .ok [1, 2, 3], md5hex := fun _ => "MD5",
    createFile := fun _ => .ok (), post := fun _ => .ok () }

/-- A raw callback message from the registered instance's process. -/
def rawMsg (ty : WechatMessageType) (body : String) : WechatMessage :=
  { pid := 100, message_id := 1, timestamp := 0, wechat_id := "wx_friend",
    sender := "wx_friend", self_id := "wx_self", is_send_message := 0,
    is_send_by_phone := none, msg_type := ty, message := body,
    file_path := "", thumb_path := "", extra_info := "" }

/-! ## Claim theorems -/

theorem write_attempts_const_false (i n : Nat) :
    write_attempts (fun _ => false) i n = List.replicate n false := by
  induction n generalizing i with
  | zero => rfl
  | succ n ih => simp [write_attempts, ih, List.replicate]

/-- C10: for every serialisable payload, `retriable_write` returns
success whenever serialisation succeeds, regardless of the outcomes of its
bounded channel-send attempts; with every send attempt failing, nothing is
ever enqueued (an all-`false` attempt trace) yet the caller still observes
success.  Only a serialisation failure is surfaced. -/
theorem C10_retriable_write_swallows_send_failures (s e : String)
    (sendOk : Nat → Bool) (rt : Option Nat) :
    (retriable_write (.ok s) sendOk rt).1 = .ok () ∧
    (retriable_write (.ok s) (fun _ => false) rt).2 =
      List.replicate (rt.getD DEFAULT_WRITE_WS_RETRY_TIME) false ∧
    (retriable_write (.error e) sendOk rt).1 = .error e := by
  refine ⟨rfl, ?_, rfl⟩
  simp [retriable_write, write_attempts_const_false]

/-- C7: each reconnect wait equals the backoff unit times the updated
failure count; the count increments exactly when the previous failure is
within the trailing 5-minute window and otherwise resets to 1; the loop
gives up exactly when the count would exceed the maximum (5).  Failures at
t = 0, 1, 2 minutes wait `unit×1, unit×2, unit×3`; a failure 10 minutes
after the previous one resets the multiplier to 1; a rapid failure burst
stops permanently after the fifth retry wait. -/
theorem C7_reconnect_backoff :
    (∀ st : WsLoopState, ∀ now : Int, ∀ w : Nat, ∀ st2 : WsLoopState,
       ws_reconnect_step st now = some (w, st2) →
       w = WS_BACKOFF_UNIT_SECS * st2.err_cnt ∧
       st2.err_cnt = (if now - st.last_err < 5 * 60 then st.err_cnt + 1 else 1) ∧
       st2.last_err = now ∧ st2.err_cnt ≤ MAX_WS_RECONNECT_COUNT) ∧
    (∀ st : WsLoopState, ∀ now : Int,
       (ws_reconnect_step st now = none ↔
        (if now - st.last_err < 5 * 60 then st.err_cnt + 1 else 1) >
          MAX_WS_RECONNECT_COUNT)) ∧
    ws_reconnect_run ⟨0, 0⟩ [0, 60, 120] =
      [WS_BACKOFF_UNIT_SECS * 1, WS_BACKOFF_UNIT_SECS * 2, WS_BACKOFF_UNIT_SECS * 3] ∧
    ws_reconnect_step ⟨3, 0⟩ 600 = some (WS_BACKOFF_UNIT_SECS * 1, ⟨1, 600⟩) ∧
    ws_reconnect_run ⟨0, 0⟩ [0, 1, 2, 3, 4, 5, 6, 7] = [5, 10, 15, 20, 25] := by
  refine ⟨?_, ?_, by decide, by decide, by decide⟩
  · intro st now w st2 h
    simp only [ws_reconnect_step] at h
    by_cases hwin : now - st.last_err < 5 * 60
    · rw [if_pos hwin] at h
      by_cases hmax : st.err_cnt + 1 > MAX_WS_RECONNECT_COUNT
      · rw [if_pos hmax] at h; cases h
      · rw [if_neg hmax] at h
        simp only [Option.some.injEq, Prod.mk.injEq] at h
        obtain ⟨hw, hst⟩ := h
        subst hst
        refine ⟨hw.symm, by rw [if_pos hwin], rfl, ?_⟩
        show st.err_cnt + 1 ≤ MAX_WS_RECONNECT_COUNT
        omega
    · rw [if_neg hwin] at h
      by_cases hmax : 1 > MAX_WS_RECONNECT_COUNT
      · rw [if_pos hmax] at h; cases h
      · rw [if_neg hmax] at h
        simp only [Option.some.injEq, Prod.mk.injEq] at h
        obtain ⟨hw, hst⟩ := h
        subst hst
        refine ⟨hw.symm, by rw [if_neg hwin], rfl, ?_⟩
        show 1 ≤ MAX_WS_RECONNECT_COUNT
        omega
  · intro st now
    simp only [ws_reconnect_step]
    by_cases hwin : now - st.last_err < 5 * 60
    · rw [if_pos hwin]
      by_cases hmax : st.err_cnt + 1 > MAX_WS_RECONNECT_COUNT
      · simp [hmax]
      · simp [hmax]
    · rw [if_neg hwin]
      by_cases hmax : 1 > MAX_WS_RECONNECT_COUNT
      · simp [hmax]
      · simp [hmax]

/-- Witness for C7: a third rapid failure (state `⟨2, 60⟩`, failure at
t = 120 s) waits `unit × 3` and keeps the count within bounds. -/
theorem C7_reconnect_backoff_witness :
    15 = WS_BACKOFF_UNIT_SECS * (WsLoopState.mk 3 120).err_cnt ∧
    (WsLoopState.mk 3 120).err_cnt =
      (if (120 : Int) - (WsLoopState.mk 2 60).last_err < 5 * 60
       then (WsLoopState.mk 2 60).err_cnt + 1 else 1) ∧
    (WsLoopState.mk 3 120).last_err = 120 ∧
    (WsLoopState.mk 3 120).err_cnt ≤ MAX_WS_RECONNECT_COUNT :=
  C7_reconnect_backoff.1 ⟨2, 60⟩ 120 15 ⟨3, 120⟩ (by decide)

/-- C8: the duplicate-phone pre-filter drops exactly the events whose
`isSendByPhone` flag is 0 and whose kind is not `Hint`: those produce no
event and no error; `Hint` events with that flag, and events with any
other flag value, do not satisfy the pre-filter. -/
theorem C8_phone_duplicate_filter (env : CallbackEnv) (st : ManagerState)
    (msg : WechatMessage) :
    (phone_dup_prefilter msg = true → handle_wechat_callback env st msg = .ok []) ∧
    (phone_dup_prefilter msg = true ↔
      (msg.is_send_by_phone = some 0 ∧ msg.msg_type ≠ WechatMessageType.Hint)) := by
  constructor
  · intro h
    simp [handle_wechat_callback, h]
  · simp [phone_dup_prefilter]

/-- Witness for C8: a concrete phone-originated non-`Hint` event satisfies
the pre-filter and is dropped without error. -/
theorem C8_phone_duplicate_filter_witness :
    handle_wechat_callback envCb0 stA
      { rawMsg .Text "hello" with is_send_by_phone := some 0 } = .ok [] :=
  (C8_phone_duplicate_filter envCb0 stA
    { rawMsg .Text "hello" with is_send_by_phone := some 0 }).1 (by decide)

theorem store_instance_pid_map (st : ManagerState) (mxid : String) (ins : WechatInstance) :
    (store_instance st mxid ins).pid_instance_map =
      alistInsert ins.pid ins st.pid_instance_map := rfl

theorem store_instance_mxid_map (st : ManagerState) (mxid : String) (ins : WechatInstance) :
    (store_instance st mxid ins).mxid_pid_map =
      alistInsert mxid ins.pid st.mxid_pid_map := rfl

/-- C3 counterexample: the claimed invariant is *not* preserved by a
`store` of a different session for an owner that is already registered:
after `Connect` re-registers owner `"@alice:hs"` with a new process
(pid 101), the old session (pid 100) is still present in the process-index
but no owner maps to it. -/
theorem C3_store_replace_breaks_consistency :
    ¬ registryConsistent
        (store_instance (store_instance stEmpty "@alice:hs" insA) "@alice:hs" insB) := by
  intro h
  obtain ⟨mxid, hm⟩ := (h 100).mp ⟨insA, by decide⟩
  have hmap :
      (store_instance (store_instance stEmpty "@alice:hs" insA) "@alice:hs"
        insB).mxid_pid_map = [("@alice:hs", 101)] := by decide
  rw [hmap] at hm
  by_cases hx : mxid = "@alice:hs" <;> simp [alistLookup, hx] at hm

/-- C3 (amended): the two registry maps stay mutually consistent under
`store` of a session whose owner and process id are both fresh, and under
`drop` of a registered owner provided the owner-index is injective;
`store` of a different session for an already-registered owner violates
the invariant (see the counterexample). -/
theorem C3_registry_consistency_amended (st : ManagerState)
    (hc : registryConsistent st) :
    (∀ mxid ins, alistLookup mxid st.mxid_pid_map = none →
       alistLookup ins.pid st.pid_instance_map = none →
       registryConsistent (store_instance st mxid ins)) ∧
    (∀ mxid st2, ownerInjective st → drop_instance st mxid = .ok st2 →
       registryConsistent st2) := by
  constructor
  · intro mxid ins hmx hpid p
    constructor
    · rintro ⟨i, hi⟩
      by_cases hp : p = ins.pid
      · refine ⟨mxid, ?_⟩
        rw [store_instance_mxid_map, alistLookup_insert_self, hp]
      · rw [store_instance_pid_map, alistLookup_insert_ne _ _ hp] at hi
        obtain ⟨o, ho⟩ := (hc p).mp ⟨i, hi⟩
        have hom : o ≠ mxid := by
          intro hh; rw [hh, hmx] at ho; cases ho
        refine ⟨o, ?_⟩
        rw [store_instance_mxid_map, alistLookup_insert_ne _ _ hom]
        exact ho
    · rintro ⟨o, ho⟩
      by_cases hp : p = ins.pid
      · refine ⟨ins, ?_⟩
        rw [store_instance_pid_map, hp, alistLookup_insert_self]
      · have hom : o ≠ mxid := by
          intro hh
          rw [hh, store_instance_mxid_map, alistLookup_insert_self] at ho
          exact hp (by injection ho with h2; exact h2.symm)
        rw [store_instance_mxid_map, alistLookup_insert_ne _ _ hom] at ho
        obtain ⟨i, hi⟩ := (hc p).mpr ⟨o, ho⟩
        refine ⟨i, ?_⟩
        rw [store_instance_pid_map, alistLookup_insert_ne _ _ hp]
        exact hi
  · intro mxid st2 hinj hdrop
    rw [drop_instance] at hdrop
    cases hlu : alistLookup mxid st.mxid_pid_map with
    | none => rw [hlu] at hdrop; cases hdrop
    | some pid =>
      rw [hlu] at hdrop
      injection hdrop with h2
      subst h2
      intro p
      constructor
      · rintro ⟨i, hi⟩
        by_cases hp : p = pid
        · rw [show ({ st with
                pid_instance_map := alistErase pid st.pid_instance_map,
                mxid_pid_map := alistErase mxid st.mxid_pid_map } :
                ManagerState).pid_instance_map =
              alistErase pid st.pid_instance_map from rfl, hp,
              alistLookup_erase_self] at hi
          cases hi
        · rw [show ({ st with
                pid_instance_map := alistErase pid st.pid_instance_map,
                mxid_pid_map := alistErase mxid st.mxid_pid_map } :
                ManagerState).pid_instance_map =
              alistErase pid st.pid_instance_map from rfl,
              alistLookup_erase_ne _ hp] at hi
          obtain ⟨o, ho⟩ := (hc p).mp ⟨i, hi⟩
          have hom : o ≠ mxid := by
            intro hh
            rw [hh, hlu] at ho
            injection ho with h3
            exact hp h3.symm
          refine ⟨o, ?_⟩
          rw [show ({ st with
                pid_instance_map := alistErase pid st.pid_instance_map,
                mxid_pid_map := alistErase mxid st.mxid_pid_map } :
                ManagerState).mxid_pid_map =
              alistErase mxid st.mxid_pid_map from rfl,
              alistLookup_erase_ne _ hom]
          exact ho
      · rintro ⟨o, ho⟩
        rw [show ({ st with
              pid_instance_map := alistErase pid st.pid_instance_map,
              mxid_pid_map := alistErase mxid st.mxid_pid_map } :
              ManagerState).mxid_pid_map =
            alistErase mxid st.mxid_pid_map from rfl] at ho
        have hom : o ≠ mxid := by
          intro hh; rw [hh, alistLookup_erase_self] at ho; cases ho
        rw [alistLookup_erase_ne _ hom] at ho
        by_cases hp : p = pid
        · exact absurd (hinj o mxid p ho (by rw [hp]; exact hlu)) hom
        · obtain ⟨i, hi⟩ := (hc p).mpr ⟨o, ho⟩
          refine ⟨i, ?_⟩
          rw [show ({ st with
                pid_instance_map := alistErase pid st.pid_instance_map,
                mxid_pid_map := alistErase mxid st.mxid_pid_map } :
                ManagerState).pid_instance_map =
              alistErase pid st.pid_instance_map from rfl,
              alistLookup_erase_ne _ hp]
          exact hi

/-- Witness for the amended C3: a fresh store into the empty registry
yields a consistent registry, and dropping the single owner of `stA`
again yields a consistent registry. -/
theorem C3_registry_consistency_witness :
    registryConsistent (store_instance stEmpty "@alice:hs" insA) ∧
    ∀ st2, drop_instance stA "@alice:hs" = .ok st2 → registryConsistent st2 := by
  have hempty : registryConsistent stEmpty := by
    intro p
    constructor
    · rintro ⟨i, hi⟩; cases hi
    · rintro ⟨o, ho⟩; cases ho
  have hA : registryConsistent stA := by
    intro p
    constructor
    · rintro ⟨i, hi⟩
      refine ⟨"@alice:hs", ?_⟩
      by_cases hp : p = 100
      · subst hp; rfl
      · exact absurd hi (by simp [stA, alistLookup, hp])
    · rintro ⟨o, ho⟩
      refine ⟨insA, ?_⟩
      have hp : p = 100 := by
        by_cases hx : o = "@alice:hs"
        · simp [stA, alistLookup, hx] at ho
          exact ho.symm
        · simp [stA, alistLookup, hx] at ho
      subst hp; rfl
  exact ⟨(C3_registry_consistency_amended stEmpty hempty).1 "@alice:hs" insA rfl rfl,
    fun st2 h => (C3_registry_consistency_amended stA hA).2 "@alice:hs" st2
      (by
        intro o₁ o₂ q h1 h2
        by_cases hx1 : o₁ = "@alice:hs"
        · by_cases hx2 : o₂ = "@alice:hs"
          · rw [hx1, hx2]
          · simp [stA, alistLookup, hx2] at h2
        · simp [stA, alistLookup, hx1] at h1)
      h⟩

theorem except_map_ok {ε α β : Type} (f : α → β) (x : α) :
    (Except.ok x : Except ε α).map f = .ok (f x) := rfl

theorem except_map_error {ε α β : Type} (f : α → β) (e : ε) :
    (Except.error e : Except ε α).map f = .error e := rfl

instance exceptDecEq {ε α : Type} [DecidableEq ε] [DecidableEq α] :
    DecidableEq (Except ε α) := fun x y =>
  match x, y with
  | .ok a, .ok b =>
    if h : a = b then .isTrue (by rw [h])
    else .isFalse (by intro hh; injection hh; contradiction)
  | .ok _, .error _ => .isFalse (by intro hh; cases hh)
  | .error _, .ok _ => .isFalse (by intro hh; cases hh)
  | .error e, .error f =>
    if h : e = f then .isTrue (by rw [h])
    else .isFalse (by intro hh; injection hh; contradiction)

/-- Whether the owner lookup succeeds and its session's process id
resolves via the process-id lookup to the same session. -/
def mxidPidAgree (st : ManagerState) (mxid : String) : Bool :=
  match get_instance_by_mxid st mxid with
  | .ok ins => decide (get_instance_by_pid st ins.pid = .ok ins)
  | .error _ => false

theorem store_lookup_self (st : ManagerState) (mxid : String) (ins : WechatInstance) :
    get_instance_by_mxid (store_instance st mxid ins) mxid = .ok ins ∧
    get_instance_by_pid (store_instance st mxid ins) ins.pid = .ok ins := by
  have h2 : get_instance_by_pid (store_instance st mxid ins) ins.pid = .ok ins := by
    simp only [get_instance_by_pid, store_instance_pid_map, alistLookup_insert_self]
  refine ⟨?_, h2⟩
  simp only [get_instance_by_mxid, store_instance_mxid_map, alistLookup_insert_self]
  exact h2

theorem mxidPidAgree_store (st : ManagerState) (mxid : String) (ins : WechatInstance) :
    mxidPidAgree (store_instance st mxid ins) mxid = true := by
  simp only [mxidPidAgree, (store_lookup_self st mxid ins).1]
  simp [(store_lookup_self st mxid ins).2]

theorem drop_lookup_fails (st : ManagerState) (mxid : String) (pid : Nat)
    (st2 : ManagerState) (hlu : alistLookup mxid st.mxid_pid_map = some pid)
    (h : drop_instance st mxid = .ok st2) :
    get_instance_by_mxid st2 mxid =
      .error ("cannot get wechat pid by mxid: " ++ mxid) ∧
    get_instance_by_pid st2 pid =
      .error ("cannot get wechat instance by pid: " ++ toString pid) := by
  rw [drop_instance, hlu] at h
  injection h with h2
  have hmx : st2.mxid_pid_map = alistErase mxid st.mxid_pid_map := by rw [← h2]
  have hpm : st2.pid_instance_map = alistErase pid st.pid_instance_map := by rw [← h2]
  constructor
  · simp only [get_instance_by_mxid, hmx, alistLookup_erase_self]
  · simp only [get_instance_by_pid, hpm, alistLookup_erase_self]

/-- C2: when a `Connect` command for owner O succeeds, the owner lookup
on the resulting registry returns a session whose process id resolves via
the process-id lookup to the same session; when a `Disconnect` for O
succeeds, both the owner lookup and the lookup of O's former process id
fail with the not-found errors. -/
theorem C2_connect_disconnect_registry (env : UpstreamEnv) (st : ManagerState)
    (msg : WebsocketMatrixRequest) :
    (msg.command = .Connect →
      exceptIsOk (_handle_matrix_events env st msg).2.2 = true →
      mxidPidAgree (_handle_matrix_events env st msg).1 msg.mxid = true) ∧
    (msg.command = .Disconnect →
      exceptIsOk (_handle_matrix_events env st msg).2.2 = true →
      ∀ pid, alistLookup msg.mxid st.mxid_pid_map = some pid →
        get_instance_by_mxid (_handle_matrix_events env st msg).1 msg.mxid =
          .error ("cannot get wechat pid by mxid: " ++ msg.mxid) ∧
        get_instance_by_pid (_handle_matrix_events env st msg).1 pid =
          .error ("cannot get wechat instance by pid: " ++ toString pid)) := by
  obtain ⟨mxid, req, cmd, data⟩ := msg
  constructor
  · intro hcmd hok
    cases hcmd
    simp only [_handle_matrix_events] at hok ⊢
    cases hins : get_instance_by_mxid st mxid with
    | ok ins =>
      rw [hins] at hok
      simp only at hok ⊢
      cases hhook : env.hook ins.pid with
      | error e =>
        rw [hhook, except_map_error] at hok
        simp [finishCommand, exceptIsOk] at hok
      | ok u =>
        rw [except_map_ok]
        exact mxidPidAgree_store st mxid ins
    | error e0 =>
      rw [hins] at hok
      simp only at hok ⊢
      cases hpid : env.newPid with
      | error e =>
        rw [hpid] at hok
        simp only at hok
        simp [finishCommand, exceptIsOk] at hok
      | ok pid =>
        rw [hpid] at hok
        simp only at hok ⊢
        cases hhook : env.hook pid with
        | error e =>
          rw [hhook, except_map_error] at hok
          simp [finishCommand, exceptIsOk] at hok
        | ok u =>
          rw [except_map_ok]
          exact mxidPidAgree_store _ mxid _
  · intro hcmd hok pid hpid
    cases hcmd
    simp only [_handle_matrix_events] at hok ⊢
    cases hdrop : drop_instance st mxid with
    | error e =>
      rw [hdrop, except_map_error] at hok
      simp [finishCommand, exceptIsOk] at hok
    | ok st2 =>
      rw [except_map_ok]
      exact drop_lookup_fails st mxid pid st2 hpid hdrop

def connectReq : WebsocketMatrixRequest :=
  { mxid := "@alice:hs", req_id := 7, command := .Connect, data := none }

def disconnectReq : WebsocketMatrixRequest :=
  { mxid := "@alice:hs", req_id := 8, command := .Disconnect, data := none }

/-- Witness for C2: a concrete successful `Connect` into the empty
registry, then a concrete successful `Disconnect` from `stA`. -/
theorem C2_connect_disconnect_witness :
    mxidPidAgree (_handle_matrix_events envU0 stEmpty connectReq).1 "@alice:hs" = true ∧
    (get_instance_by_mxid (_handle_matrix_events envU0 stA disconnectReq).1 "@alice:hs" =
       .error ("cannot get wechat pid by mxid: " ++ "@alice:hs") ∧
     get_instance_by_pid (_handle_matrix_events envU0 stA disconnectReq).1 100 =
       .error ("cannot get wechat instance by pid: " ++ toString 100)) :=
  ⟨(C2_connect_disconnect_registry envU0 stEmpty connectReq).1 rfl (by decide),
   (C2_connect_disconnect_registry envU0 stA disconnectReq).2 rfl (by decide) 100 rfl⟩

theorem finishCommand_shape (mxid : String) (req : Int) (st : ManagerState)
    (r : Except String (ManagerState × Option PayloadVal)) :
    (∃ e, (finishCommand mxid req st r).2 = ([], .error e)) ∨
    (∃ d, (finishCommand mxid req st r).2 = ([⟨mxid, req, .resp d⟩], .ok ())) := by
  cases r with
  | error e => exact .inl ⟨e, rfl⟩
  | ok v =>
    obtain ⟨st2, d⟩ := v
    exact .inr ⟨d, rfl⟩

/-- Every dispatcher arm either fails having written nothing, or succeeds
having written exactly one `Response` reply correlated to the request. -/
theorem handle_matrix_shape (env : UpstreamEnv) (st : ManagerState)
    (msg : WebsocketMatrixRequest) :
    (∃ e, (_handle_matrix_events env st msg).2 = ([], .error e)) ∨
    (∃ d, (_handle_matrix_events env st msg).2 =
       ([⟨msg.mxid, msg.req_id, .resp d⟩], .ok ())) := by
  obtain ⟨mxid, req, cmd, data⟩ := msg
  cases cmd <;> simp only [_handle_matrix_events] <;>
    first
      | exact finishCommand_shape ..
      | exact .inl ⟨_, rfl⟩
      | (rcases data with _ | (⟨w, g⟩ | ⟨m⟩) <;>
          first
            | exact finishCommand_shape ..
            | exact .inl ⟨_, rfl⟩)
      | (cases get_instance_by_mxid st mxid <;> exact finishCommand_shape ..)

/-- C1: every inbound command produces exactly one reply, correlated to
the command's owner and request id; the reply is a `Response` exactly when
the handler arm succeeds, and otherwise an `Error` carrying the failure's
message.  (`handle_matrix_events` is a total function — the translated
read loop logs and continues regardless, so no command failure aborts
it.) -/
theorem C1_exactly_one_reply (env : UpstreamEnv) (st : ManagerState)
    (msg : WebsocketMatrixRequest) :
    ((handle_matrix_events env st msg).2.map (fun r => (r.mxid, r.req_id)) =
       [(msg.mxid, msg.req_id)]) ∧
    ((handle_matrix_events env st msg).2.map WsReply.isResp =
       [exceptIsOk (_handle_matrix_events env st msg).2.2]) ∧
    ((handle_matrix_events env st msg).2.map WsReply.errMsg =
       [exceptErrOf (_handle_matrix_events env st msg).2.2]) := by
  have hsplit : _handle_matrix_events env st msg =
      ((_handle_matrix_events env st msg).1,
       (_handle_matrix_events env st msg).2.1,
       (_handle_matrix_events env st msg).2.2) := rfl
  rcases handle_matrix_shape env st msg with ⟨e, h⟩ | ⟨d, h⟩
  · have h1 : (_handle_matrix_events env st msg).2.1 = [] := by rw [h]
    have h2 : (_handle_matrix_events env st msg).2.2 = .error e := by rw [h]
    rw [handle_matrix_events, hsplit, h1, h2]
    simp [WsReply.isResp, WsReply.errMsg, exceptIsOk, exceptErrOf, h2]
  · have h1 : (_handle_matrix_events env st msg).2.1 =
        [⟨msg.mxid, msg.req_id, .resp d⟩] := by rw [h]
    have h2 : (_handle_matrix_events env st msg).2.2 = .ok () := by rw [h]
    rw [handle_matrix_events, hsplit, h1, h2]
    simp [WsReply.isResp, WsReply.errMsg, exceptIsOk, exceptErrOf, h2]

/-- The (kind, payload) pairings `send_message` accepts, following the
spec's payload contract (§4.2). -/
def sendShapeAllowed : MatrixMessageType → Option MatrixMessageDataField → Bool
  | .Text, none => true
  | .Text, some (.Mentions _) => true
  | .Image, some (.Media _ _) => true
  | .Video, some (.Media _ _) => true
  | .File, some (.Media _ _) => true
  | _, _ => false

/-- C4: `send_message` on a registered session performs, per
(kind, payload) pair: a plain-text send for `Text` with no payload or an
empty mention list; an at-send addressed to exactly the joined mention
ids for `Text` with a non-empty mention list; for `Image`/`Video` with a
media payload, exactly one file persisted under the session's save path
followed by one image-send referencing that file; for `File` with a media
payload, the persisted file followed by one file-send; and every other
pairing fails with the invalid-payload error, performing no send. -/
theorem C4_send_message_contract (env : UpstreamEnv) (ins : WechatInstance)
    (target content : String) :
    (env.post (.sendText target content) = .ok () →
      send_message env ins ⟨target, .Text, content, none⟩ =
        .ok [.sendText target content]) ∧
    (env.post (.sendText target content) = .ok () →
      send_message env ins ⟨target, .Text, content, some (.Mentions [])⟩ =
        .ok [.sendText target content]) ∧
    (∀ ms : List String, ms ≠ [] →
      env.post (.sendAtText target content (String.intercalate "," ms)) = .ok () →
      send_message env ins ⟨target, .Text, content, some (.Mentions ms)⟩ =
        .ok [.sendAtText target content (String.intercalate "," ms)]) ∧
    (∀ name url blob, env.fetchUrl url = .ok blob →
      env.createFile (media_filepath env ins name blob) = .ok () →
      env.post (.sendImage target (media_filepath env ins name blob)) = .ok () →
      send_message env ins ⟨target, .Image, content, some (.Media name url)⟩ =
          .ok [.persistFile (media_filepath env ins name blob) blob,
               .sendImage target (media_filepath env ins name blob)] ∧
      send_message env ins ⟨target, .Video, content, some (.Media name url)⟩ =
          .ok [.persistFile (media_filepath env ins name blob) blob,
               .sendImage target (media_filepath env ins name blob)]) ∧
    (∀ name url blob, env.fetchUrl url = .ok blob →
      env.createFile (media_filepath env ins name blob) = .ok () →
      env.post (.sendFile target (media_filepath env ins name blob)) = .ok () →
      send_message env ins ⟨target, .File, content, some (.Media name url)⟩ =
        .ok [.persistFile (media_filepath env ins name blob) blob,
             .sendFile target (media_filepath env ins name blob)]) ∧
    (∀ mt d, sendShapeAllowed mt d = false →
      send_message env ins ⟨target, mt, content, d⟩ =
        .error "message type and data are mismatched") := by
  refine ⟨?_, ?_, ?_, ?_, ?_, ?_⟩
  · intro hp
    simp [send_message, hp, except_map_ok]
  · intro hp
    simp [send_message, hp, except_map_ok]
  · intro ms hms hp
    simp [send_message, List.isEmpty_iff, hms, hp, except_map_ok]
  · intro name url blob hf hc hp
    constructor <;> simp [send_message, save_media, hf, hc, hp, except_map_ok]
  · intro name url blob hf hc hp
    simp [send_message, save_media, hf, hc, hp, except_map_ok]
  · intro mt d hshape
    cases mt <;> rcases d with _ | f <;>
      first
        | rfl
        | (cases f <;>
            first
              | rfl
              | exact absurd hshape (by simp [sendShapeAllowed]))
        | exact absurd hshape (by simp [sendShapeAllowed])

/-- Witness for C4: concrete sends through the all-success upstream
environment: a non-empty mention list at-send, an image media send with
its persisted file, and a mismatched pairing. -/
theorem C4_send_message_witness :
    send_message envU0 insA ⟨"friend", .Text, "hi", some (.Mentions ["a", "b"])⟩ =
      .ok [.sendAtText "friend" "hi" (String.intercalate "," ["a", "b"])] ∧
    send_message envU0 insA ⟨"friend", .Text, "hi", none⟩ =
      .ok [.sendText "friend" "hi"] ∧
    send_message envU0 insA ⟨"friend", .Image, "", some (.Media "p.png" "mxc://x")⟩ =
      .ok [.persistFile (media_filepath envU0 insA "p.png" [1, 2, 3]) [1, 2, 3],
           .sendImage "friend" (media_filepath envU0 insA "p.png" [1, 2, 3])] ∧
    send_message envU0 insA ⟨"friend", .Image, "", some (.Blob none [1])⟩ =
      .error "message type and data are mismatched" :=
  ⟨(C4_send_message_contract envU0 insA "friend" "hi").2.2.1 ["a", "b"] (by decide) rfl,
   (C4_send_message_contract envU0 insA "friend" "hi").1 rfl,
   ((C4_send_message_contract envU0 insA "friend" "").2.2.2.1 "p.png" "mxc://x"
      [1, 2, 3] rfl rfl rfl).1,
   (C4_send_message_contract envU0 insA "friend" "").2.2.2.2.2 .Image
      (some (.Blob none [1])) rfl⟩

/-- The event kinds of a translation result. -/
def eventTypes (r : Except String (List WebsocketEvent)) :
    Except String (List EventType) :=
  r.map (List.map (fun e => e.base.event_type))

/-- The event kinds and contents of a translation result. -/
def eventShapes (r : Except String (List WebsocketEvent)) :
    Except String (List (EventType × String)) :=
  r.map (List.map (fun e => (e.base.event_type, e.base.content)))

/-- C5 (code-bug evidence): for a Text-kind raw event the translator
*hard-fails* when the extra-info mention list cannot be parsed — the `?`
on `get_mentions` propagates the error, so no event is emitted (and, with
`MAX_WECHAT_CALLBACK_FAIL_COUNT = 0`, the connection is torn down) —
contradicting the spec's "parse failure ⇒ no mentions attached, not a
hard failure": here a Text event with empty extra-info yields the
`get_mentions` error, and one with malformed extra-info also fails. -/
theorem C5_text_mention_parse_hard_failure :
    handle_wechat_callback envCb0 stA (rawMsg .Text "hello") =
      .error "no data in extra info" ∧
    exceptIsOk (handle_wechat_callback envCb0 stA
      { rawMsg .Text "hello" with extra_info := "<bad" }) = false := by
  constructor <;> decide

/-- C6 counterexample: a System-kind event from a non-"weixin" sender
with self-origin flag 0 but an *empty* body is emitted with kind `Text`
(and the system-parse-failure placeholder), not kind `System` as the
claim states. -/
theorem C6_empty_system_counterexample :
    handle_wechat_callback envCb0 stA (rawMsg .System "") =
      .ok [⟨{ mxid := "@alice:hs", id := 1, event_type := .Text, timestamp := 0,
              sender := "wx_friend", target := "wx_self",
              content := "[系统消息解析失败]", reply := none }, none⟩] ∧
    eventTypes (handle_wechat_callback envCb0 stA (rawMsg .System "")) ≠
      .ok [EventType.System] := by
  constructor <;> decide

/-- When the body is non-empty, `parse_system_message` always succeeds;
its value is empty for the `pat`/`revokemsg` sub-types. -/
theorem parse_system_message_ok (m : String) (h : m ≠ "") :
    ∃ s, parse_system_message m = .ok s ∧
      ((sysMsgType m = some "pat" ∨ sysMsgType m = some "revokemsg") → s = "") := by
  simp only [parse_system_message, if_neg h]
  cases hs : sysMsgType m with
  | none => exact ⟨"", rfl, fun _ => rfl⟩
  | some t =>
    by_cases hp : (decide (t = "pat") || decide (t = "revokemsg")) = true
    · simp only [hp, if_true]
      exact ⟨"", rfl, fun _ => rfl⟩
    · simp only [hp, if_false, Bool.false_eq_true]
      refine ⟨m, rfl, fun hor => absurd ?_ hp⟩
      rcases hor with h1 | h1
      · injection h1 with h2
        subst h2
        simp
      · injection h1 with h2
        subst h2
        simp

/-- C6 (amended): a System-kind event with sender "weixin" or the
self-origin flag set is dropped entirely; from any other sender with the
flag clear and a *non-empty* body it is emitted with kind `System`, with
empty content when the parsed sub-type is `pat` or `revokemsg` (those are
resent via the Hint path); with an *empty* body it is emitted with kind
`Text` and the system-parse-failure placeholder. -/
theorem C6_system_translation_amended (env : CallbackEnv) (st : ManagerState)
    (msg : WechatMessage) (ins : WechatInstance)
    (hty : msg.msg_type = .System)
    (hpre : phone_dup_prefilter msg = false)
    (hins : get_instance_by_pid st msg.pid = .ok ins) :
    ((msg.sender = "weixin" ∨ msg.is_send_message = 1) →
       handle_wechat_callback env st msg = .ok []) ∧
    (msg.sender ≠ "weixin" → msg.is_send_message ≠ 1 → msg.message ≠ "" →
       eventTypes (handle_wechat_callback env st msg) = .ok [EventType.System]) ∧
    (msg.sender ≠ "weixin" → msg.is_send_message ≠ 1 → msg.message ≠ "" →
       (sysMsgType msg.message = some "pat" ∨ sysMsgType msg.message = some "revokemsg") →
       eventShapes (handle_wechat_callback env st msg) =
         .ok [(EventType.System, "")]) ∧
    (msg.sender ≠ "weixin" → msg.is_send_message ≠ 1 → msg.message = "" →
       eventShapes (handle_wechat_callback env st msg) =
         .ok [(EventType.Text, "[系统消息解析失败]")]) := by
  refine ⟨?_, ?_, ?_, ?_⟩
  · intro hd
    simp [handle_wechat_callback, hpre, hins, hty, hd]
  · intro h1 h2 h3
    obtain ⟨s, hps, _⟩ := parse_system_message_ok msg.message h3
    simp only [handle_wechat_callback, hpre, Bool.false_eq_true, if_false, hins, hty, hps]
    simp [h1, h2, eventTypes, except_map_ok]
    split <;> rfl
  · intro h1 h2 h3 hsub
    obtain ⟨s, hps, hempty⟩ := parse_system_message_ok msg.message h3
    have hs0 : s = "" := hempty hsub
    subst hs0
    have hb1 : (("" : String) == "You recalled a message") = false := by decide
    have hb2 : (("" : String) == "你撤回了一条消息") = false := by decide
    simp only [handle_wechat_callback, hpre, Bool.false_eq_true, if_false, hins, hty, hps]
    simp [h1, h2, eventShapes, hb1, hb2, except_map_ok]
  · intro h1 h2 h3
    have hps : parse_system_message msg.message = .error "no data in extra info" := by
      rw [h3]; rfl
    simp only [handle_wechat_callback, hpre, Bool.false_eq_true, if_false, hins, hty, hps]
    simp [h1, h2, eventShapes, except_map_ok]
    split <;> first | rfl | (split <;> rfl)

/-- Witness for C6: a "weixin" system frame is dropped; a concrete `pat`
system message is emitted with kind `System` and empty content; an empty
system body is emitted with kind `Text` and the placeholder. -/
theorem C6_system_translation_witness :
    handle_wechat_callback envCb0 stA
      { rawMsg .System "<sysmsg type=\"pat\"></sysmsg>" with sender := "weixin" } =
      .ok [] ∧
    eventShapes (handle_wechat_callback envCb0 stA
      (rawMsg .System "<sysmsg type=\"pat\"><pat>z</pat></sysmsg>")) =
      .ok [(EventType.System, "")] ∧
    eventShapes (handle_wechat_callback envCb0 stA (rawMsg .System "")) =
      .ok [(EventType.Text, "[系统消息解析失败]")] :=
  ⟨(C6_system_translation_amended envCb0 stA
      { rawMsg .System "<sysmsg type=\"pat\"></sysmsg>" with sender := "weixin" }
      insA rfl rfl rfl).1 (Or.inl rfl),
   (C6_system_translation_amended envCb0 stA
      (rawMsg .System "<sysmsg type=\"pat\"><pat>z</pat></sysmsg>")
      insA rfl rfl rfl).2.2.1 (by decide) (by decide) (by decide)
      (Or.inl (by decide)),
   (C6_system_translation_amended envCb0 stA (rawMsg .System "")
      insA rfl rfl rfl).2.2.2 (by decide) (by decide) rfl⟩

/-- The Location body exactly as the claim writes it. -/
def locBodyRoot : String :=
  "<location x=\"31.2\" y=\"121.4\" poiname=\"X\" label=\"Y\"/>"

/-- The same location element wrapped in the `<msg>` envelope the
deserialised struct shape (`Message { location: … }`) actually requires. -/
def locBodyWrapped : String :=
  "<msg><location x=\"31.2\" y=\"121.4\" poiname=\"X\" label=\"Y\"/></msg>"

/-- C9 counterexample: with the body written in the claim — a bare
`<location …/>` root element — deserialisation into
`Message { location: LocationMessage }` fails (the struct requires a
`location` *child* element), so the translator emits the
location-parse-failure placeholder with kind `Text` and no location
payload, not the claimed normalized location event. -/
theorem C9_location_claimed_body_fails :
    handle_wechat_callback envCb0 stA (rawMsg .Location locBodyRoot) =
      .ok [⟨{ mxid := "@alice:hs", id := 1, event_type := .Text, timestamp := 0,
              sender := "wx_friend", target := "wx_self",
              content := "[位置解析失败]", reply := none }, none⟩] ∧
    eventTypes (handle_wechat_callback envCb0 stA (rawMsg .Location locBodyRoot)) ≠
      .ok [EventType.Location] := by
  constructor <;> decide

/-- C9 (amended): translating a Location-kind raw event whose body
wraps the location element in a root envelope,
`<msg><location x="31.2" y="121.4" poiname="X" label="Y"/></msg>`, yields
one normalized event with kind `Location` whose payload has
latitude 31.2 (from attribute `x`), longitude 121.4 (from `y`),
name "X" (from `poiname`) and address "Y" (from `label`). -/
theorem C9_location_translation_amended :
    handle_wechat_callback envCb0 stA (rawMsg .Location locBodyWrapped) =
      .ok [⟨{ mxid := "@alice:hs", id := 1, event_type := .Location, timestamp := 0,
              sender := "wx_friend", target := "wx_self",
              content := locBodyWrapped, reply := none },
            some (.Location "X" "Y" ⟨1214, 1⟩ ⟨312, 1⟩)⟩] ∧
    (DecimalNum.mk 312 1).toRat = 31.2 ∧
    (DecimalNum.mk 1214 1).toRat = 121.4 := by
  refine ⟨by decide, ?_, ?_⟩ <;> norm_num [DecimalNum.toRat]

end MatrixWechatAgent
